import Mathlib

/-!
# Verification of the HomeRAG loader library

Shallow embedding of the repository's data model and loaders:
the `Document` record with its construction-time validation, the
loader factory (`get_loader`), the shared `validate_source` helper,
the PDF and CSV loaders, and the HTML loader's recursive crawler.

External effects are modelled explicitly: the filesystem, the PDF
parsing library (PyMuPDF / `fitz`) and the HTTP fetch are passed in as
"world" structures, so every definition is an executable function of
the world and its inputs.
-/

/-- Python exception values observed at the loader boundary.
`valueError` covers `ValueError` (the spec's ValidationError,
UnsupportedType and "malformed source" classes are all raised as
`ValueError` in the source); `fileNotFoundError` covers
`FileNotFoundError` (the spec's NotFound). -/
inductive PyErr
  | valueError (msg : String)
  | fileNotFoundError (msg : String)
deriving DecidableEq, Repr

/-- The `str(e)` of an exception: its message. -/
def PyErr.message : PyErr → String
  | .valueError m => m
  | .fileNotFoundError m => m

/-- Python `s.startswith(p)` (structural, so that concrete crawls
evaluate inside the kernel). -/
def pyStartsWith (s p : String) : Bool :=
  p.data.isPrefixOf s.data

/-- Python `s.lower()` on the ASCII type tags used here. -/
def pyLower (s : String) : String :=
  String.mk (s.data.map Char.toLower)

/-- One `{page_number, text}` record of the PDF loader's
`page_texts` metadata entry. -/
structure PageRec where
  page_number : Nat
  text : String
deriving DecidableEq, Repr

/-- Values stored in a `Document`'s metadata dictionary. -/
inductive MetaVal
  | s (v : String)
  | n (v : Nat)
  | strs (v : List String)
  | pages (v : List PageRec)
deriving DecidableEq, Repr

/-- From `src/models/document.py`: the normalized document record.
`metadata` is the Python dict, modelled as an association list in
insertion order. -/
structure Document where
  content : String
  source_uri : String
  doc_type : String
  metadata : List (String × MetaVal)
deriving DecidableEq, Repr

/-- Constructing `Document(...)` including `__post_init__` validation:
for a Python `str`, `not s` holds exactly when `s` is empty, so each
empty required field raises `ValueError`, checked in source order. -/
def mkDocument (content source_uri doc_type : String)
    (metadata : List (String × MetaVal)) : Except PyErr Document :=
  if content = "" then .error (.valueError "Document content cannot be empty")
  else if source_uri = "" then .error (.valueError "Document source_uri cannot be empty")
  else if doc_type = "" then .error (.valueError "Document doc_type cannot be empty")
  else .ok { content := content, source_uri := source_uri,
             doc_type := doc_type, metadata := metadata }

/-- Constructing `Document(...)` with the `metadata` argument omitted: the dataclass
field default `field(default_factory=dict)` supplies an empty dict. -/
def mkDocumentDefaultMeta (content source_uri doc_type : String) :
    Except PyErr Document :=
  mkDocument content source_uri doc_type []

/-- From `base_loader.py`, `AbstractDataLoader.validate_source`: an empty
string is falsy, so it returns `False` before any `Path` call; a
non-URL path is checked against the filesystem (`existing` is the set
of paths for which `Path(p).exists()` holds); URL-like sources are
accepted unconditionally. -/
def validate_source (existing : List String) (source_path : String) : Bool :=
  if source_path = "" then false
  else if ¬ (pyStartsWith source_path "http://" || pyStartsWith source_path "https://") then
    existing.contains source_path
  else true

/-- The value `Path(p).name`: the final path component. -/
def pathName (p : String) : String :=
  (p.splitOn "/").getLastD p

/-! ## Loader registry and factory (`loaders/__init__.py`) -/

/-- The loader classes held in `_LOADER_REGISTRY`. -/
inductive LoaderClass
  | pdfL
  | csvL
  | htmlL
deriving DecidableEq, Repr

/-- From `config.py` (or the fallback in `html_loader.py`): crawler settings.
`max_depth` and `max_links_per_page` are Python ints. -/
structure CrawlerConfig where
  stay_in_domain : Bool
  max_depth : Int
  follow_links : Bool
  max_links_per_page : Int
deriving DecidableEq, Repr

/-- The dataclass defaults of `CrawlerConfig`. -/
def defaultCrawlerConfig : CrawlerConfig :=
  { stay_in_domain := true, max_depth := 2,
    follow_links := true, max_links_per_page := 10 }

/-- A freshly constructed loader instance, carrying the constructor's
default configuration (`PDFLoader()`, `CSVLoader()` with
`row_as_document=True`, `HTMLLoader()` with the default config). -/
inductive LoaderInstance
  | pdfI
  | csvI (row_as_document : Bool)
  | htmlI (config : CrawlerConfig)
deriving DecidableEq, Repr

/-- Calling `loader_class()`: construct an instance with default arguments. -/
def LoaderClass.mkInstance : LoaderClass → LoaderInstance
  | .pdfL => .pdfI
  | .csvL => .csvI true
  | .htmlL => .htmlI defaultCrawlerConfig

/-- The initial `_LOADER_REGISTRY`. -/
def loaderRegistry : List (String × LoaderClass) :=
  [("pdf", .pdfL), ("csv", .csvL), ("html", .htmlL)]

/-- The factory `get_loader(file_type)`: lower-case the tag, look it up, and either
raise `ValueError` listing the registered tags or construct a fresh
instance of the registered class. -/
def get_loader (registry : List (String × LoaderClass)) (file_type : String) :
    Except PyErr LoaderInstance :=
  let file_type_lower := pyLower file_type
  match registry.lookup file_type_lower with
  | none => .error (.valueError ("Unsupported file type: " ++ file_type ++
      ". Available types: " ++ String.intercalate ", " (registry.map Prod.fst)))
  | some c => .ok c.mkInstance

/-! ## PDF loader (`loaders/pdf_loader.py`) -/

/-- A `fitz.Document` handle: the page texts of the opened file plus
the closed flag set by `close()`. -/
structure PdfHandle where
  pages : List String
  is_closed : Bool

/-- The operation `len(pdf_doc)` / `Document.page_count` in PyMuPDF: using a closed
handle raises `ValueError("document closed")`. -/
def PdfHandle.pageCount (h : PdfHandle) : Except PyErr Nat :=
  if h.is_closed then .error (.valueError "document closed")
  else .ok h.pages.length

/-- The operation `pdf_doc.close()`. -/
def PdfHandle.close (h : PdfHandle) : PdfHandle :=
  { h with is_closed := true }

/-- The environment the PDF loader runs against: which paths exist,
what `fitz.open` yields per path (page texts on success, the raised
message on failure), `Path(p).stat().st_size`, and
`str(Path(p).absolute())`. -/
structure PdfWorld where
  files : List String
  pdf : String → Except String (List String)
  size : String → Nat
  absPath : String → String

/-- The method `PDFLoader.load`: missing source fails with `FileNotFoundError`
before opening; the `try` body opens the file, extracts every page's
text, closes the handle, and only then evaluates `len(pdf_doc)` for
the `total_pages` metadata entry — on the already-closed handle; any
exception from the body is re-raised as
`ValueError(f"Error loading PDF file {path}: {msg}")`. -/
def PDFLoader.load (w : PdfWorld) (source_path : String) :
    Except PyErr (List Document) :=
  if ¬ validate_source w.files source_path then
    .error (.fileNotFoundError ("PDF file not found: " ++ source_path))
  else
    let body : Except PyErr (List Document) := do
      let h ← match w.pdf source_path with
        | .error msg => Except.error (PyErr.valueError msg)
        | .ok pages => Except.ok ({ pages := pages, is_closed := false } : PdfHandle)
      let n ← h.pageCount
      let full_text := (List.range n).map fun i => h.pages.getD i ""
      let page_texts := (List.range n).map fun i =>
        ({ page_number := i + 1, text := h.pages.getD i "" } : PageRec)
      let hClosed := h.close
      let content := String.intercalate "\n\n" full_text
      let total_pages ← hClosed.pageCount
      let metadata : List (String × MetaVal) :=
        [("source_path", .s source_path), ("total_pages", .n total_pages),
         ("page_texts", .pages page_texts), ("file_name", .s (pathName source_path)),
         ("file_size", .n (w.size source_path))]
      let d ← mkDocument content (w.absPath source_path) "pdf" metadata
      pure [d]
    match body with
    | .ok docs => .ok docs
    | .error e => .error (.valueError ("Error loading PDF file " ++ source_path ++
        ": " ++ e.message))

/-! ## CSV loader (`loaders/csv_loader.py`) -/

/-- The errors `pd.read_csv` can raise: `EmptyDataError` or any other
parse failure with its message. -/
inductive CsvReadError
  | emptyData
  | parseError (msg : String)

/-- A parsed dataframe: column names and rows, each cell already
rendered the way the f-string renders `row[col]`. -/
structure Frame where
  columns : List String
  rows : List (List String)

/-- The environment the CSV loader runs against. `renderTable` is
`df.to_string(index=False)`. -/
structure CsvWorld where
  files : List String
  read_csv : String → Except CsvReadError Frame
  size : String → Nat
  absPath : String → String
  renderTable : Frame → String

/-- The row rendering of the CSV loader, joining `col: value` lines
with newlines. -/
def rowText (cols cells : List String) : String :=
  String.intercalate "\n" ((cols.zip cells).map fun p => p.1 ++ ": " ++ p.2)

/-- The method `CSVLoader.load`: missing source fails with `FileNotFoundError`;
`EmptyDataError` becomes `ValueError("CSV file is empty: ...")`; any
other failure (including a `read_csv` parse error or a `Document`
validation error) is wrapped as
`ValueError(f"Error loading CSV file {path}: {msg}")`. -/
def CSVLoader.load (row_as_document : Bool) (w : CsvWorld) (source_path : String) :
    Except PyErr (List Document) :=
  if ¬ validate_source w.files source_path then
    .error (.fileNotFoundError ("CSV file not found: " ++ source_path))
  else
    match w.read_csv source_path with
    | .error .emptyData => .error (.valueError ("CSV file is empty: " ++ source_path))
    | .error (.parseError msg) =>
        .error (.valueError ("Error loading CSV file " ++ source_path ++ ": " ++ msg))
    | .ok df =>
      let body : Except PyErr (List Document) :=
        if row_as_document then
          df.rows.enum.mapM fun ir =>
            mkDocument (rowText df.columns ir.2)
              (source_path ++ "#row_" ++ toString ir.1) "csv"
              [("source_path", .s source_path), ("row_index", .n ir.1),
               ("columns", .strs df.columns), ("file_name", .s (pathName source_path)),
               ("total_rows", .n df.rows.length)]
        else do
          let d ← mkDocument (w.renderTable df) (w.absPath source_path) "csv"
            [("source_path", .s source_path), ("columns", .strs df.columns),
             ("total_rows", .n df.rows.length), ("total_columns", .n df.columns.length),
             ("file_name", .s (pathName source_path)),
             ("file_size", .n (w.size source_path))]
          pure [d]
      match body with
      | .ok docs => .ok docs
      | .error e => .error (.valueError ("Error loading CSV file " ++ source_path ++
          ": " ++ e.message))

/-! ## HTML loader / crawler (`loaders/html_loader.py`) -/

/-- Split a character list at the first occurrence of `"://"`:
the part before it and the part after it. -/
def schemeSplit : List Char → Option (List Char × List Char)
  | [] => none
  | c :: rest =>
      if [':', '/', '/'].isPrefixOf (c :: rest) then some ([], (c :: rest).drop 3)
      else match schemeSplit rest with
        | none => none
        | some (scheme, after) => some (c :: scheme, after)

/-- The value `f"{scheme}://{netloc}"` built from `urlparse(url)`, for the
http(s)-style URLs the loader works with: the scheme is the (lower-
cased) part before the first `"://"`, the netloc runs from there to
the next `/`, `?` or `#`.  A string without `"://"` parses with empty
scheme and netloc, giving `"://"` (as the f-string does for a
relative reference). -/
def urlDomain (url : String) : String :=
  match schemeSplit url.data with
  | none => "://"
  | some (scheme, after) =>
      String.mk (scheme.map Char.toLower) ++ "://" ++
        String.mk (after.takeWhile fun c => c ≠ '/' ∧ c ≠ '?' ∧ c ≠ '#')

/-- The outcome of successfully fetching and parsing one page:
the visible text of the content root after boilerplate stripping
(`main_content.get_text(separator='\n', strip=True)`), the stripped
`<title>` text when present, and the `href` attributes of the
`<a href>` elements inside the content root, in document order. -/
structure FetchedPage where
  content : String
  title : Option String
  hrefs : List String
deriving DecidableEq, Repr

/-- The network/HTML environment of a crawl: `fetch url` is `none`
when `session.get`/`raise_for_status` raises (network failure or HTTP
error status), and `urljoin` is `urllib.parse.urljoin`. -/
structure Web where
  fetch : String → Option FetchedPage
  urljoin : String → String → String

/-- The mutable state of one crawl: `self.visited_urls`, the
`documents` accumulator list, and (for the proofs) the `trace` of
URLs passed to `session.get`, in order. -/
structure CrawlState where
  visited : List String
  documents : List Document
  trace : List String
deriving DecidableEq, Repr

/-- Python slicing `xs[:m]` for an int `m`: the first `m` elements
when `m ≥ 0`, all but the last `|m|` elements when `m < 0`. -/
def pySliceTo {α : Type} (xs : List α) (m : Int) : List α :=
  if 0 ≤ m then xs.take m.toNat else xs.take (xs.length - m.natAbs)

/-- The metadata dict built for a crawled page:
`extract_metadata(url, title=..., depth=..., content_length=...)`. -/
def htmlMetadata (url : String) (page : FetchedPage) (depth : Nat) :
    List (String × MetaVal) :=
  [("source_path", .s url), ("title", .s (page.title.getD "Untitled")),
   ("depth", .n depth), ("content_length", .n page.content.length)]

/-- The method `HTMLLoader._crawl_url`, with an explicit `fuel` argument for the
recursion.  `load` calls it with `fuel = max_depth.toNat + 1` at
`depth = 0`, and every recursive call decrements `fuel` while
incrementing `depth`, so along every reachable call
`fuel + depth = max_depth.toNat + 1`; at `fuel = 0` this forces
`depth > max_depth` (when `max_depth ≥ 0`), where the source's depth
guard returns without touching the state — exactly what the `fuel = 0`
equation does (`crawlUrl_depth_guard` below makes this precise).

The body follows the source's order: depth guard, visited guard,
domain guard, fetch (recorded in `trace`; a raised `RequestException`
abandons the branch), then the URL is marked visited, the `Document`
is constructed (a `ValueError` from validation is swallowed by the
generic handler, abandoning the branch after the visited mark), and
finally, when `follow_links` holds and `depth < max_depth`, the first
`max_links_per_page` links are resolved and crawled in order. -/
def crawlUrl (web : Web) (cfg : CrawlerConfig) (base : String) :
    Nat → String → Nat → CrawlState → CrawlState
  | 0, _, _, st => st
  | fuel + 1, url, depth, st =>
    if (depth : Int) > cfg.max_depth then st
    else if url ∈ st.visited then st
    else if cfg.stay_in_domain ∧ urlDomain url ≠ base then st
    else
      match web.fetch url with
      | none => { st with trace := st.trace ++ [url] }
      | some page =>
        let st1 : CrawlState :=
          { st with trace := st.trace ++ [url], visited := st.visited.insert url }
        match mkDocument page.content url "html" (htmlMetadata url page depth) with
        | .error _ => st1
        | .ok doc =>
          let st2 : CrawlState := { st1 with documents := st1.documents ++ [doc] }
          if cfg.follow_links ∧ (depth : Int) < cfg.max_depth then
            (pySliceTo page.hrefs cfg.max_links_per_page).foldl
              (fun s href => crawlUrl web cfg base fuel (web.urljoin url href) (depth + 1) s)
              st2
          else st2

/-- Decidable equality of `Except` results, for evaluating concrete
load outcomes. -/
instance {ε α : Type} [DecidableEq ε] [DecidableEq α] : DecidableEq (Except ε α) := fun a b =>
  match a, b with
  | .ok x, .ok y => if h : x = y then .isTrue (by rw [h]) else .isFalse (by simp [h])
  | .error x, .error y => if h : x = y then .isTrue (by rw [h]) else .isFalse (by simp [h])
  | .ok _, .error _ => .isFalse (by simp)
  | .error _, .ok _ => .isFalse (by simp)

/-- The result of `HTMLLoader.load`: the returned value (or raised
error) together with the loader's final crawl state. -/
structure LoadResult where
  result : Except PyErr (List Document)
  final : CrawlState
deriving DecidableEq, Repr

/-- The method `HTMLLoader.load`: a start URL without an `http(s)://` prefix is
rejected before `visited_urls` is touched (so the prior visited set
`visited0` survives in that branch); otherwise `visited_urls` is
cleared, `base_domain` is computed from the start URL, the crawl runs
from depth 0, and an empty document list raises
`ValueError("No content extracted from ...")`. -/
def HTMLLoader.load (web : Web) (cfg : CrawlerConfig) (visited0 : List String)
    (source_path : String) : LoadResult :=
  if ¬ (pyStartsWith source_path "http://" || pyStartsWith source_path "https://") then
    { result := .error (.valueError ("Invalid URL: " ++ source_path ++
        ". Must start with http:// or https://")),
      final := { visited := visited0, documents := [], trace := [] } }
  else
    let base := urlDomain source_path
    let st := crawlUrl web cfg base (cfg.max_depth.toNat + 1) source_path 0
      { visited := [], documents := [], trace := [] }
    if st.documents = [] then
      { result := .error (.valueError ("No content extracted from " ++ source_path)),
        final := st }
    else
      { result := .ok st.documents, final := st }

/-- How often `u` occurs in a list of URLs. -/
def countOf (l : List String) (u : String) : Nat :=
  (l.filter fun v => v = u).length

/-- How many of the accumulated documents carry `u` as `source_uri`. -/
def docsFor (st : CrawlState) (u : String) : Nat :=
  (st.documents.filter fun d => d.source_uri = u).length

/-! ## Concrete environments used as counterexamples and witnesses -/

/-- A readable, parseable one-page PDF file `doc.pdf` with text
`"hello"`. -/
def pdfWorldEx : PdfWorld :=
  { files := ["doc.pdf"],
    pdf := fun p => if p = "doc.pdf" then .ok ["hello"] else .error "cannot open",
    size := fun _ => 5,
    absPath := fun p => "/work/" ++ p }

/-- A crawl graph where `http://a.com/u` is reachable within the
default depth bound 2 via two different link paths (through `/a` and
through `/b`) and its fetch fails with an HTTP error. -/
def webC2 : Web :=
  { fetch := fun u =>
      if u = "http://a.com/" then
        some ⟨"S", some "T", ["http://a.com/a", "http://a.com/b"]⟩
      else if u = "http://a.com/a" then some ⟨"A", none, ["http://a.com/u"]⟩
      else if u = "http://a.com/b" then some ⟨"B", none, ["http://a.com/u"]⟩
      else none,
    urljoin := fun _ href => href }

/-- A start page whose fetch succeeds but whose extracted visible
text is empty, with five outbound links. -/
def webC3 : Web :=
  { fetch := fun u =>
      if u = "http://c.com/" then
        some ⟨"", some "T", ["http://c.com/1", "http://c.com/2", "http://c.com/3",
                             "http://c.com/4", "http://c.com/5"]⟩
      else none,
    urljoin := fun _ href => href }

/-- A start page with five distinct same-domain links to distinct
fetchable pages, the first of which has empty extracted text. -/
def webC4 : Web :=
  { fetch := fun u =>
      if u = "http://d.com/" then
        some ⟨"S", none, ["http://d.com/1", "http://d.com/2", "http://d.com/3",
                          "http://d.com/4", "http://d.com/5"]⟩
      else if u = "http://d.com/1" then some ⟨"", none, []⟩
      else if u = "http://d.com/2" then some ⟨"P2", none, []⟩
      else if u = "http://d.com/3" then some ⟨"P3", none, []⟩
      else if u = "http://d.com/4" then some ⟨"P4", none, []⟩
      else if u = "http://d.com/5" then some ⟨"P5", none, []⟩
      else none,
    urljoin := fun _ href => href }

/-! ## C1: PDF loader metadata -/

/-- C1: for every readable, parseable PDF the claim says `load`
returns one Document whose metadata carries the page count, the
1-indexed per-page records, the file name and the file size.  The
code instead evaluates `len(pdf_doc)` for the `total_pages` entry
after `pdf_doc.close()`, which raises `ValueError("document closed")`
inside the `try` block, so `load` raises
`ValueError("Error loading PDF file ...: document closed")` for every
PDF — here evaluated on a readable one-page PDF. -/
theorem claim1_pdf_closed_handle_bug :
    PDFLoader.load pdfWorldEx "doc.pdf" =
      .error (.valueError "Error loading PDF file doc.pdf: document closed") := by
  decide

/-! ## C6: Document validation -/

/-- C6: constructing a Document with any of `content`, `source_uri`
or `doc_type` empty fails with the validation `ValueError`;
with all three non-empty it succeeds, and when `metadata` is not
supplied it defaults to the empty mapping. -/
theorem claim6_document_validation (c s d : String) (m : List (String × MetaVal)) :
    ((c = "" ∨ s = "" ∨ d = "") ↔ ∃ msg, mkDocument c s d m = .error (.valueError msg)) ∧
    (c ≠ "" → s ≠ "" → d ≠ "" →
      mkDocument c s d m = .ok ⟨c, s, d, m⟩ ∧
      mkDocumentDefaultMeta c s d = .ok ⟨c, s, d, []⟩) := by
  unfold mkDocumentDefaultMeta mkDocument
  constructor
  · constructor
    · rintro (h | h | h) <;> simp [h]
      · by_cases hc : c = "" <;> simp [hc]
      · by_cases hc : c = "" <;> by_cases hs : s = "" <;> simp [hc, hs]
    · rintro ⟨msg, hmsg⟩
      by_cases hc : c = "" <;> by_cases hs : s = "" <;> by_cases hd : d = "" <;>
        simp_all
  · intro hc hs hd
    simp [hc, hs, hd]

/-- Witness for C6 at concrete fields. -/
theorem claim6_document_validation_witness :
    mkDocument "x" "u" "t" [] = .ok ⟨"x", "u", "t", []⟩ ∧
    mkDocumentDefaultMeta "x" "u" "t" = .ok ⟨"x", "u", "t", []⟩ :=
  (claim6_document_validation "x" "u" "t" []).2 (by decide) (by decide) (by decide)

/-! ## C7: loader factory -/

/-- C7: `get_loader` is case-insensitive — two tags with the same
lower-casing that hit a registered entry yield instances of the same
loader class — and an unregistered tag fails with the `ValueError`
whose message lists exactly the currently registered tags. -/
theorem claim7_get_loader (reg : List (String × LoaderClass)) (s t : String)
    (c : LoaderClass) :
    (pyLower s = pyLower t → reg.lookup (pyLower s) = some c →
      get_loader reg s = .ok c.mkInstance ∧ get_loader reg t = .ok c.mkInstance) ∧
    (reg.lookup (pyLower s) = none →
      get_loader reg s = .error (.valueError ("Unsupported file type: " ++ s ++
        ". Available types: " ++ String.intercalate ", " (reg.map Prod.fst)))) := by
  constructor
  · intro hlow hfind
    constructor
    · unfold get_loader
      simp only [hfind]
    · unfold get_loader
      simp only [← hlow, hfind]
  · intro hnone
    unfold get_loader
    simp only [hnone]

/-- Witness for C7: `"PDF"` and `"pdf"` both yield the PDF loader;
`"docx"` fails listing `pdf, csv, html`. -/
theorem claim7_get_loader_witness :
    (get_loader loaderRegistry "PDF" = .ok LoaderClass.pdfL.mkInstance ∧
     get_loader loaderRegistry "pdf" = .ok LoaderClass.pdfL.mkInstance) ∧
    get_loader loaderRegistry "docx" =
      .error (.valueError "Unsupported file type: docx. Available types: pdf, csv, html") :=
  ⟨(claim7_get_loader loaderRegistry "PDF" "pdf" .pdfL).1 (by decide) (by decide),
   (claim7_get_loader loaderRegistry "docx" "docx" .pdfL).2 (by decide)⟩

/-! ## C10: empty-string source -/

/-- C10: `validate_source` returns false for the empty string before
any filesystem access, so `CSVLoader.load` and `PDFLoader.load` with
an empty source fail with the `FileNotFoundError` raised at the
validation guard (not a `ValueError`), in every environment. -/
theorem claim10_empty_source_not_found (fs : List String) (cw : CsvWorld)
    (pw : PdfWorld) (row_as_document : Bool) :
    validate_source fs "" = false ∧
    CSVLoader.load row_as_document cw "" =
      .error (.fileNotFoundError "CSV file not found: ") ∧
    PDFLoader.load pw "" =
      .error (.fileNotFoundError "PDF file not found: ") := by
    refine ⟨rfl, ?_, ?_⟩ <;> simp [CSVLoader.load, PDFLoader.load, validate_source]

/-! ## Counterexamples for C2, C3, C4 as stated -/

/-- C2 as stated is false: in `webC2`, `http://a.com/u` is reachable
within the default depth bound via the two link paths
`/ → /a → /u` and `/ → /b → /u`, but since its fetch fails it is
never marked visited, so one `load` call fetches it twice (and, the
fetch failing, no Document carries it). -/
theorem claim2_counterexample :
    countOf (HTMLLoader.load webC2 defaultCrawlerConfig [] "http://a.com/").final.trace
      "http://a.com/u" = 2 ∧
    docsFor (HTMLLoader.load webC2 defaultCrawlerConfig [] "http://a.com/").final
      "http://a.com/u" = 0 := by
  decide

/-- C3 as stated is false: in `webC3` the start page's fetch succeeds
(with five outbound links) but its extracted text is empty, so the
swallowed Document validation error leaves the document list empty and
`load` raises `ValueError` instead of returning one Document. -/
theorem claim3_counterexample :
    (HTMLLoader.load webC3 ⟨true, 0, true, 10⟩ [] "http://c.com/").result =
      .error (.valueError "No content extracted from http://c.com/") := by
  decide

/-- C4 as stated is false: in `webC4` the start page has five
distinct same-domain links to distinct fetchable pages, but the first
link's page has empty extracted text, so with `max_depth = 1` and
`max_links_per_page = 2` `load` returns 2 Documents, not 3. -/
theorem claim4_counterexample :
    ((HTMLLoader.load webC4 ⟨true, 1, true, 2⟩ [] "http://d.com/").result.map
      List.length) = .ok 2 := by
  decide

/-! ## Crawl step lemmas -/

/-- A URL accepted by the prefix check is non-empty. -/
theorem validPrefix_ne_empty (s : String)
    (h : (pyStartsWith s "http://" || pyStartsWith s "https://") = true) : s ≠ "" := by
  rintro rfl
  exact absurd h (by decide)

/-- A `Document` construction succeeds on non-empty fields. -/
theorem mkDocument_ok (c s d : String) (m : List (String × MetaVal))
    (hc : c ≠ "") (hs : s ≠ "") (hd : d ≠ "") :
    mkDocument c s d m = .ok ⟨c, s, d, m⟩ := by
  simp [mkDocument, hc, hs, hd]

/-- A `Document` construction raises on empty content. -/
theorem mkDocument_empty_content (s d : String) (m : List (String × MetaVal)) :
    mkDocument "" s d m = .error (.valueError "Document content cannot be empty") :=
  rfl

/-- The depth guard: past `max_depth` the crawl leaves the state
untouched, whatever the fuel (in particular at fuel 0, which `load`'s
fuel choice only reaches at `depth = max_depth + 1`). -/
theorem crawlUrl_depth_guard (web : Web) (cfg : CrawlerConfig) (base : String)
    (fuel : Nat) (url : String) (depth : Nat) (st : CrawlState)
    (h : (depth : Int) > cfg.max_depth) :
    crawlUrl web cfg base fuel url depth st = st := by
  cases fuel with
  | zero => rfl
  | succ n => simp [crawlUrl, h]

/-- The visited guard: an already-visited URL is skipped. -/
theorem crawlUrl_visited (web : Web) (cfg : CrawlerConfig) (base : String)
    (fuel : Nat) (url : String) (depth : Nat) (st : CrawlState)
    (hd : ¬ ((depth : Int) > cfg.max_depth)) (hv : url ∈ st.visited) :
    crawlUrl web cfg base (fuel + 1) url depth st = st := by
  simp [crawlUrl, hd, hv]

/-- The domain guard: with `stay_in_domain` set, a URL outside the
base domain is skipped. -/
theorem crawlUrl_domain_guard (web : Web) (cfg : CrawlerConfig) (base : String)
    (fuel : Nat) (url : String) (depth : Nat) (st : CrawlState)
    (hd : ¬ ((depth : Int) > cfg.max_depth)) (hv : url ∉ st.visited)
    (hdom : cfg.stay_in_domain ∧ urlDomain url ≠ base) :
    crawlUrl web cfg base (fuel + 1) url depth st = st := by
  simp [crawlUrl, hd, hv, hdom]

/-- A failed fetch abandons the branch: only the fetch trace grows,
the URL is not marked visited and no Document is appended. -/
theorem crawlUrl_fetch_fail (web : Web) (cfg : CrawlerConfig) (base : String)
    (fuel : Nat) (url : String) (depth : Nat) (st : CrawlState)
    (hd : ¬ ((depth : Int) > cfg.max_depth)) (hv : url ∉ st.visited)
    (hdom : ¬ (cfg.stay_in_domain ∧ urlDomain url ≠ base))
    (hf : web.fetch url = none) :
    crawlUrl web cfg base (fuel + 1) url depth st =
      { st with trace := st.trace ++ [url] } := by
  simp [crawlUrl, hd, hv, hdom, hf]

/-- A successful fetch whose Document construction fails (empty
extracted text) marks the URL visited and stops: no Document, no
link-following. -/
theorem crawlUrl_fetch_nodoc (web : Web) (cfg : CrawlerConfig) (base : String)
    (fuel : Nat) (url : String) (depth : Nat) (st : CrawlState)
    (page : FetchedPage) (e : PyErr)
    (hd : ¬ ((depth : Int) > cfg.max_depth)) (hv : url ∉ st.visited)
    (hdom : ¬ (cfg.stay_in_domain ∧ urlDomain url ≠ base))
    (hf : web.fetch url = some page)
    (hdoc : mkDocument page.content url "html" (htmlMetadata url page depth) = .error e) :
    crawlUrl web cfg base (fuel + 1) url depth st =
      { st with trace := st.trace ++ [url], visited := url :: st.visited } := by
  simp [crawlUrl, hd, hv, hdom, hf, hdoc, List.insert, hv]

/-- A successful fetch with a valid Document: the page is traced,
marked visited, its Document appended, and, exactly when
`follow_links` holds and `depth < max_depth`, the first
`max_links_per_page` links are crawled in order from the updated
state. -/
theorem crawlUrl_fetch_ok (web : Web) (cfg : CrawlerConfig) (base : String)
    (fuel : Nat) (url : String) (depth : Nat) (st : CrawlState)
    (page : FetchedPage) (doc : Document)
    (hd : ¬ ((depth : Int) > cfg.max_depth)) (hv : url ∉ st.visited)
    (hdom : ¬ (cfg.stay_in_domain ∧ urlDomain url ≠ base))
    (hf : web.fetch url = some page)
    (hdoc : mkDocument page.content url "html" (htmlMetadata url page depth) = .ok doc) :
    crawlUrl web cfg base (fuel + 1) url depth st =
      (if cfg.follow_links ∧ (depth : Int) < cfg.max_depth then
        (pySliceTo page.hrefs cfg.max_links_per_page).foldl
          (fun s href => crawlUrl web cfg base fuel (web.urljoin url href) (depth + 1) s)
          { visited := url :: st.visited, documents := st.documents ++ [doc],
            trace := st.trace ++ [url] }
      else
        { visited := url :: st.visited, documents := st.documents ++ [doc],
          trace := st.trace ++ [url] }) := by
  have hne : List.elem url st.visited = false := by
    rw [List.elem_eq_mem]
    exact decide_eq_false hv
  simp only [crawlUrl, hf, hdoc, if_neg hd, if_neg hv, if_neg hdom, List.insert, hne,
    Bool.false_eq_true, if_false, ite_false]

/-! ## C3 (amended): max_depth = 0 -/

/-- C3, amended: with `max_depth = 0`, whenever the start page's
fetch succeeds and its extracted text is non-empty, `load` returns
exactly the start page's Document and the start page is the only URL
ever fetched — regardless of `follow_links`, of `stay_in_domain`, of
`max_links_per_page` and of how many links the page contains. -/
theorem claim3_max_depth_zero (web : Web) (cfg : CrawlerConfig) (v0 : List String)
    (s : String) (p : FetchedPage)
    (hmd : cfg.max_depth = 0)
    (hs : (pyStartsWith s "http://" || pyStartsWith s "https://") = true)
    (hf : web.fetch s = some p) (hc : p.content ≠ "") :
    (HTMLLoader.load web cfg v0 s).result =
      .ok [⟨p.content, s, "html", htmlMetadata s p 0⟩] ∧
    (HTMLLoader.load web cfg v0 s).final.trace = [s] := by
  have hsne : s ≠ "" := validPrefix_ne_empty s hs
  have hdoc : mkDocument p.content s "html" (htmlMetadata s p 0) =
      .ok ⟨p.content, s, "html", htmlMetadata s p 0⟩ :=
    mkDocument_ok _ _ _ _ hc hsne (by decide)
  have hstep : crawlUrl web cfg (urlDomain s) (cfg.max_depth.toNat + 1) s 0
      ⟨[], [], []⟩ = ⟨[s], [⟨p.content, s, "html", htmlMetadata s p 0⟩], [s]⟩ := by
    rw [crawlUrl_fetch_ok web cfg (urlDomain s) cfg.max_depth.toNat s 0
      ⟨[], [], []⟩ p ⟨p.content, s, "html", htmlMetadata s p 0⟩
      (by rw [hmd]; decide) (by simp) (by simp) hf hdoc]
    rw [if_neg]
    · rfl
    · rw [hmd]
      simp
  have hload : HTMLLoader.load web cfg v0 s =
      ⟨.ok [⟨p.content, s, "html", htmlMetadata s p 0⟩],
       ⟨[s], [⟨p.content, s, "html", htmlMetadata s p 0⟩], [s]⟩⟩ := by
    unfold HTMLLoader.load
    rw [if_neg (not_not_intro hs)]
    simp only [hstep]
    rfl
  rw [hload]
  exact ⟨rfl, rfl⟩

/-- A witness graph for the amended C3: a start page with non-empty
text and five outbound links. -/
def pageW3 : FetchedPage :=
  ⟨"X", none, ["http://w.com/1", "http://w.com/2", "http://w.com/3",
               "http://w.com/4", "http://w.com/5"]⟩

/-- A witness web for the amended C3. -/
def webW3 : Web :=
  { fetch := fun u => if u = "http://w.com/" then some pageW3 else none,
    urljoin := fun _ href => href }

/-- Witness for the amended C3 at a concrete graph and config. -/
theorem claim3_max_depth_zero_witness :
    (HTMLLoader.load webW3 ⟨true, 0, true, 10⟩ [] "http://w.com/").result =
      .ok [⟨"X", "http://w.com/", "html", htmlMetadata "http://w.com/" pageW3 0⟩] ∧
    (HTMLLoader.load webW3 ⟨true, 0, true, 10⟩ [] "http://w.com/").final.trace =
      ["http://w.com/"] :=
  claim3_max_depth_zero webW3 ⟨true, 0, true, 10⟩ [] "http://w.com/" pageW3
    rfl (by decide) (by decide) (by decide)

/-! ## C5: per-branch failure isolation -/

/-- C5: with the default configuration, a start page linking to `a`
and `b` where `a`'s fetch fails with a network/HTTP error: the `a`
branch alone is abandoned (it is fetched but yields no Document, is
never marked visited, and nothing below it is crawled), the sibling
branch `b` is still crawled, and `load` succeeds with the Documents
of the other reachable pages — the failure does not propagate. -/
theorem claim5_branch_failure_isolated (web : Web) (s a b : String)
    (p0 pb : FetchedPage)
    (hs : (pyStartsWith s "http://" || pyStartsWith s "https://") = true)
    (h0 : web.fetch s = some p0) (hc0 : p0.content ≠ "")
    (hh0 : p0.hrefs = [a, b])
    (hja : web.urljoin s a = a) (hjb : web.urljoin s b = b)
    (hdoma : urlDomain a = urlDomain s) (hdomb : urlDomain b = urlDomain s)
    (hfa : web.fetch a = none)
    (hb : web.fetch b = some pb) (hcb : pb.content ≠ "") (hbne : b ≠ "")
    (hbh : pb.hrefs = [])
    (das : a ≠ s) (dbs : b ≠ s) (dba : b ≠ a) :
    (HTMLLoader.load web defaultCrawlerConfig [] s).result =
      .ok [⟨p0.content, s, "html", htmlMetadata s p0 0⟩,
           ⟨pb.content, b, "html", htmlMetadata b pb 1⟩] ∧
    (HTMLLoader.load web defaultCrawlerConfig [] s).final.trace = [s, a, b] ∧
    a ∉ (HTMLLoader.load web defaultCrawlerConfig [] s).final.visited ∧
    docsFor (HTMLLoader.load web defaultCrawlerConfig [] s).final a = 0 := by
  have hsne : s ≠ "" := validPrefix_ne_empty s hs
  have hdoc0 : mkDocument p0.content s "html" (htmlMetadata s p0 0) =
      .ok ⟨p0.content, s, "html", htmlMetadata s p0 0⟩ :=
    mkDocument_ok _ _ _ _ hc0 hsne (by decide)
  have hdocb : mkDocument pb.content b "html" (htmlMetadata b pb 1) =
      .ok ⟨pb.content, b, "html", htmlMetadata b pb 1⟩ :=
    mkDocument_ok _ _ _ _ hcb hbne (by decide)
  have hstep : crawlUrl web defaultCrawlerConfig (urlDomain s)
      (defaultCrawlerConfig.max_depth.toNat + 1) s 0 ⟨[], [], []⟩ =
      ⟨[b, s], [⟨p0.content, s, "html", htmlMetadata s p0 0⟩,
                ⟨pb.content, b, "html", htmlMetadata b pb 1⟩], [s, a, b]⟩ := by
    rw [show defaultCrawlerConfig.max_depth.toNat + 1 = 2 + 1 from rfl]
    rw [crawlUrl_fetch_ok web defaultCrawlerConfig (urlDomain s) 2 s 0 ⟨[], [], []⟩
      p0 ⟨p0.content, s, "html", htmlMetadata s p0 0⟩
      (by decide) (by simp) (by simp) h0 hdoc0]
    rw [if_pos (by decide)]
    rw [hh0, show pySliceTo [a, b] defaultCrawlerConfig.max_links_per_page = [a, b] by
      simp [pySliceTo, defaultCrawlerConfig]]
    simp only [List.foldl_cons, List.foldl_nil, List.nil_append]
    rw [hja, hjb]
    rw [crawlUrl_fetch_fail web defaultCrawlerConfig (urlDomain s) 1 a 1
      ⟨[s], [⟨p0.content, s, "html", htmlMetadata s p0 0⟩], [s]⟩
      (by decide) (by simp [das]) (by simp [hdoma]) hfa]
    simp only [List.singleton_append, List.cons_append, List.nil_append]
    rw [crawlUrl_fetch_ok web defaultCrawlerConfig (urlDomain s) 1 b 1
      ⟨[s], [⟨p0.content, s, "html", htmlMetadata s p0 0⟩], [s, a]⟩
      pb ⟨pb.content, b, "html", htmlMetadata b pb 1⟩
      (by decide) (by simp [dbs]) (by simp [hdomb]) hb hdocb]
    rw [if_pos (by decide)]
    rw [hbh, show pySliceTo ([] : List String) defaultCrawlerConfig.max_links_per_page = []
      by simp [pySliceTo]]
    simp
  have hload : HTMLLoader.load web defaultCrawlerConfig [] s =
      ⟨.ok [⟨p0.content, s, "html", htmlMetadata s p0 0⟩,
            ⟨pb.content, b, "html", htmlMetadata b pb 1⟩],
       ⟨[b, s], [⟨p0.content, s, "html", htmlMetadata s p0 0⟩,
                 ⟨pb.content, b, "html", htmlMetadata b pb 1⟩], [s, a, b]⟩⟩ := by
    unfold HTMLLoader.load
    rw [if_neg (not_not_intro hs)]
    simp only [hstep]
    rfl
  rw [hload]
  refine ⟨rfl, rfl, ?_, ?_⟩
  · simp [das, Ne.symm dba]
  · simp [docsFor, Ne.symm das, dba]

/-- Witness pages and graph for C5: `/a` fails, `/b` succeeds. -/
def pageW5s : FetchedPage := ⟨"S", none, ["http://v.com/a", "http://v.com/b"]⟩

/-- The sibling page of the failing branch in the C5 witness graph. -/
def pageW5b : FetchedPage := ⟨"B", none, []⟩

/-- The C5 witness web. -/
def webW5 : Web :=
  { fetch := fun u =>
      if u = "http://v.com/" then some pageW5s
      else if u = "http://v.com/b" then some pageW5b
      else none,
    urljoin := fun _ href => href }

/-- Witness for C5 at a concrete graph. -/
theorem claim5_branch_failure_isolated_witness :
    (HTMLLoader.load webW5 defaultCrawlerConfig [] "http://v.com/").result =
      .ok [⟨pageW5s.content, "http://v.com/", "html",
            htmlMetadata "http://v.com/" pageW5s 0⟩,
           ⟨pageW5b.content, "http://v.com/b", "html",
            htmlMetadata "http://v.com/b" pageW5b 1⟩] ∧
    (HTMLLoader.load webW5 defaultCrawlerConfig [] "http://v.com/").final.trace =
      ["http://v.com/", "http://v.com/a", "http://v.com/b"] ∧
    "http://v.com/a" ∉
      (HTMLLoader.load webW5 defaultCrawlerConfig [] "http://v.com/").final.visited ∧
    docsFor (HTMLLoader.load webW5 defaultCrawlerConfig [] "http://v.com/").final
      "http://v.com/a" = 0 :=
  claim5_branch_failure_isolated webW5 "http://v.com/" "http://v.com/a" "http://v.com/b"
    pageW5s pageW5b (by decide) (by decide) (by decide) (by decide) (by decide) (by decide)
    (by decide) (by decide) (by decide) (by decide) (by decide) (by decide)
    (by decide) (by decide) (by decide) (by decide)

/-! ## C8: empty extracted text -/

/-- C8: with the default configuration, a successfully fetched page
with empty extracted text is marked visited but yields no Document
and none of its links is ever followed (the `Document` validation
error is swallowed by the generic per-URL handler), while the rest of
the crawl continues and `load` still returns the other pages'
Documents. -/
theorem claim8_empty_content_swallowed (web : Web) (s a b c : String)
    (p0 pa pb : FetchedPage)
    (hs : (pyStartsWith s "http://" || pyStartsWith s "https://") = true)
    (h0 : web.fetch s = some p0) (hc0 : p0.content ≠ "")
    (hh0 : p0.hrefs = [a, b])
    (hja : web.urljoin s a = a) (hjb : web.urljoin s b = b)
    (hdoma : urlDomain a = urlDomain s) (hdomb : urlDomain b = urlDomain s)
    (hfa : web.fetch a = some pa) (hca : pa.content = "") (hah : pa.hrefs = [c])
    (hb : web.fetch b = some pb) (hcb : pb.content ≠ "") (hbne : b ≠ "")
    (hbh : pb.hrefs = [])
    (das : a ≠ s) (dbs : b ≠ s) (dba : b ≠ a)
    (dcs : c ≠ s) (dca : c ≠ a) (dcb : c ≠ b) :
    (HTMLLoader.load web defaultCrawlerConfig [] s).result =
      .ok [⟨p0.content, s, "html", htmlMetadata s p0 0⟩,
           ⟨pb.content, b, "html", htmlMetadata b pb 1⟩] ∧
    (HTMLLoader.load web defaultCrawlerConfig [] s).final.trace = [s, a, b] ∧
    a ∈ (HTMLLoader.load web defaultCrawlerConfig [] s).final.visited ∧
    docsFor (HTMLLoader.load web defaultCrawlerConfig [] s).final a = 0 ∧
    c ∉ (HTMLLoader.load web defaultCrawlerConfig [] s).final.trace := by
  have hsne : s ≠ "" := validPrefix_ne_empty s hs
  have hdoc0 : mkDocument p0.content s "html" (htmlMetadata s p0 0) =
      .ok ⟨p0.content, s, "html", htmlMetadata s p0 0⟩ :=
    mkDocument_ok _ _ _ _ hc0 hsne (by decide)
  have hdoca : mkDocument pa.content a "html" (htmlMetadata a pa 1) =
      .error (.valueError "Document content cannot be empty") := by
    rw [hca]
    exact mkDocument_empty_content _ _ _
  have hdocb : mkDocument pb.content b "html" (htmlMetadata b pb 1) =
      .ok ⟨pb.content, b, "html", htmlMetadata b pb 1⟩ :=
    mkDocument_ok _ _ _ _ hcb hbne (by decide)
  have hstep : crawlUrl web defaultCrawlerConfig (urlDomain s)
      (defaultCrawlerConfig.max_depth.toNat + 1) s 0 ⟨[], [], []⟩ =
      ⟨[b, a, s], [⟨p0.content, s, "html", htmlMetadata s p0 0⟩,
                   ⟨pb.content, b, "html", htmlMetadata b pb 1⟩], [s, a, b]⟩ := by
    rw [show defaultCrawlerConfig.max_depth.toNat + 1 = 2 + 1 from rfl]
    rw [crawlUrl_fetch_ok web defaultCrawlerConfig (urlDomain s) 2 s 0 ⟨[], [], []⟩
      p0 ⟨p0.content, s, "html", htmlMetadata s p0 0⟩
      (by decide) (by simp) (by simp) h0 hdoc0]
    rw [if_pos (by decide)]
    rw [hh0, show pySliceTo [a, b] defaultCrawlerConfig.max_links_per_page = [a, b] by
      simp [pySliceTo, defaultCrawlerConfig]]
    simp only [List.foldl_cons, List.foldl_nil, List.nil_append]
    rw [hja, hjb]
    rw [crawlUrl_fetch_nodoc web defaultCrawlerConfig (urlDomain s) 1 a 1
      ⟨[s], [⟨p0.content, s, "html", htmlMetadata s p0 0⟩], [s]⟩ pa
      (.valueError "Document content cannot be empty")
      (by decide) (by simp [das]) (by simp [hdoma]) hfa hdoca]
    simp only [List.singleton_append, List.cons_append, List.nil_append]
    rw [crawlUrl_fetch_ok web defaultCrawlerConfig (urlDomain s) 1 b 1
      ⟨[a, s], [⟨p0.content, s, "html", htmlMetadata s p0 0⟩], [s, a]⟩
      pb ⟨pb.content, b, "html", htmlMetadata b pb 1⟩
      (by decide) (by simp [dbs, dba]) (by simp [hdomb]) hb hdocb]
    rw [if_pos (by decide)]
    rw [hbh, show pySliceTo ([] : List String) defaultCrawlerConfig.max_links_per_page = []
      by simp [pySliceTo]]
    simp
  have hload : HTMLLoader.load web defaultCrawlerConfig [] s =
      ⟨.ok [⟨p0.content, s, "html", htmlMetadata s p0 0⟩,
            ⟨pb.content, b, "html", htmlMetadata b pb 1⟩],
       ⟨[b, a, s], [⟨p0.content, s, "html", htmlMetadata s p0 0⟩,
                    ⟨pb.content, b, "html", htmlMetadata b pb 1⟩], [s, a, b]⟩⟩ := by
    unfold HTMLLoader.load
    rw [if_neg (not_not_intro hs)]
    simp only [hstep]
    rfl
  rw [hload]
  refine ⟨rfl, rfl, ?_, ?_, ?_⟩
  · simp
  · simp [docsFor, Ne.symm das, dba]
  · simp [dcs, dca, dcb]

/-- Witness pages for C8: `/a` fetches but has empty text and links
to `/c`; `/b` has text. -/
def pageW8s : FetchedPage := ⟨"S", none, ["http://y.com/a", "http://y.com/b"]⟩

/-- The empty-text page of the C8 witness graph. -/
def pageW8a : FetchedPage := ⟨"", none, ["http://y.com/c"]⟩

/-- The sibling page of the C8 witness graph. -/
def pageW8b : FetchedPage := ⟨"B", none, []⟩

/-- The C8 witness web. -/
def webW8 : Web :=
  { fetch := fun u =>
      if u = "http://y.com/" then some pageW8s
      else if u = "http://y.com/a" then some pageW8a
      else if u = "http://y.com/b" then some pageW8b
      else none,
    urljoin := fun _ href => href }

/-- Witness for C8 at a concrete graph. -/
theorem claim8_empty_content_swallowed_witness :
    (HTMLLoader.load webW8 defaultCrawlerConfig [] "http://y.com/").result =
      .ok [⟨pageW8s.content, "http://y.com/", "html",
            htmlMetadata "http://y.com/" pageW8s 0⟩,
           ⟨pageW8b.content, "http://y.com/b", "html",
            htmlMetadata "http://y.com/b" pageW8b 1⟩] ∧
    (HTMLLoader.load webW8 defaultCrawlerConfig [] "http://y.com/").final.trace =
      ["http://y.com/", "http://y.com/a", "http://y.com/b"] ∧
    "http://y.com/a" ∈
      (HTMLLoader.load webW8 defaultCrawlerConfig [] "http://y.com/").final.visited ∧
    docsFor (HTMLLoader.load webW8 defaultCrawlerConfig [] "http://y.com/").final
      "http://y.com/a" = 0 ∧
    "http://y.com/c" ∉
      (HTMLLoader.load webW8 defaultCrawlerConfig [] "http://y.com/").final.trace :=
  claim8_empty_content_swallowed webW8 "http://y.com/" "http://y.com/a" "http://y.com/b"
    "http://y.com/c" pageW8s pageW8a pageW8b (by decide) (by decide) (by decide)
    (by decide) (by decide) (by decide) (by decide) (by decide) (by decide) (by decide)
    (by decide) (by decide) (by decide) (by decide) (by decide) (by decide) (by decide)
    (by decide) (by decide) (by decide) (by decide)

/-! ## C4 (amended): max_depth = 1, max_links_per_page = 2 -/

/-- C4, amended: with `max_depth = 1` and `max_links_per_page = 2`
(other settings at their defaults), a start page with five distinct
same-domain links to distinct fetchable pages yields, provided the
start page and the first two linked pages have non-empty extracted
text, exactly 3 Documents — the start page plus the first two links
in document order — and the links beyond the first two are never
fetched. -/
theorem claim4_link_cap (web : Web) (s l1 l2 l3 l4 l5 : String)
    (p0 p1 p2 : FetchedPage)
    (hs : (pyStartsWith s "http://" || pyStartsWith s "https://") = true)
    (h0 : web.fetch s = some p0) (hc0 : p0.content ≠ "")
    (hh0 : p0.hrefs = [l1, l2, l3, l4, l5])
    (hj1 : web.urljoin s l1 = l1) (hj2 : web.urljoin s l2 = l2)
    (hdom1 : urlDomain l1 = urlDomain s) (hdom2 : urlDomain l2 = urlDomain s)
    (h1 : web.fetch l1 = some p1) (hc1 : p1.content ≠ "") (hne1 : l1 ≠ "")
    (h2 : web.fetch l2 = some p2) (hc2 : p2.content ≠ "") (hne2 : l2 ≠ "")
    (d1s : l1 ≠ s) (d2s : l2 ≠ s) (d21 : l2 ≠ l1)
    (d3s : l3 ≠ s) (d31 : l3 ≠ l1) (d32 : l3 ≠ l2)
    (d4s : l4 ≠ s) (d41 : l4 ≠ l1) (d42 : l4 ≠ l2)
    (d5s : l5 ≠ s) (d51 : l5 ≠ l1) (d52 : l5 ≠ l2) :
    (HTMLLoader.load web ⟨true, 1, true, 2⟩ [] s).result =
      .ok [⟨p0.content, s, "html", htmlMetadata s p0 0⟩,
           ⟨p1.content, l1, "html", htmlMetadata l1 p1 1⟩,
           ⟨p2.content, l2, "html", htmlMetadata l2 p2 1⟩] ∧
    (HTMLLoader.load web ⟨true, 1, true, 2⟩ [] s).final.trace = [s, l1, l2] ∧
    l3 ∉ (HTMLLoader.load web ⟨true, 1, true, 2⟩ [] s).final.trace ∧
    l4 ∉ (HTMLLoader.load web ⟨true, 1, true, 2⟩ [] s).final.trace ∧
    l5 ∉ (HTMLLoader.load web ⟨true, 1, true, 2⟩ [] s).final.trace := by
  have hsne : s ≠ "" := validPrefix_ne_empty s hs
  have hdoc0 : mkDocument p0.content s "html" (htmlMetadata s p0 0) =
      .ok ⟨p0.content, s, "html", htmlMetadata s p0 0⟩ :=
    mkDocument_ok _ _ _ _ hc0 hsne (by decide)
  have hdoc1 : mkDocument p1.content l1 "html" (htmlMetadata l1 p1 1) =
      .ok ⟨p1.content, l1, "html", htmlMetadata l1 p1 1⟩ :=
    mkDocument_ok _ _ _ _ hc1 hne1 (by decide)
  have hdoc2 : mkDocument p2.content l2 "html" (htmlMetadata l2 p2 1) =
      .ok ⟨p2.content, l2, "html", htmlMetadata l2 p2 1⟩ :=
    mkDocument_ok _ _ _ _ hc2 hne2 (by decide)
  have hstep : crawlUrl web ⟨true, 1, true, 2⟩ (urlDomain s)
      ((1 : Int).toNat + 1) s 0 ⟨[], [], []⟩ =
      ⟨[l2, l1, s], [⟨p0.content, s, "html", htmlMetadata s p0 0⟩,
                     ⟨p1.content, l1, "html", htmlMetadata l1 p1 1⟩,
                     ⟨p2.content, l2, "html", htmlMetadata l2 p2 1⟩], [s, l1, l2]⟩ := by
    rw [show (1 : Int).toNat + 1 = 1 + 1 from rfl]
    rw [crawlUrl_fetch_ok web ⟨true, 1, true, 2⟩ (urlDomain s) 1 s 0 ⟨[], [], []⟩
      p0 ⟨p0.content, s, "html", htmlMetadata s p0 0⟩
      (by decide) (by simp) (by simp) h0 hdoc0]
    rw [if_pos (by decide)]
    rw [hh0, show pySliceTo [l1, l2, l3, l4, l5] (2 : Int) = [l1, l2] by
      simp [pySliceTo, List.take]]
    simp only [List.foldl_cons, List.foldl_nil, List.nil_append]
    rw [hj1, hj2]
    rw [crawlUrl_fetch_ok web ⟨true, 1, true, 2⟩ (urlDomain s) 0 l1 1
      ⟨[s], [⟨p0.content, s, "html", htmlMetadata s p0 0⟩], [s]⟩
      p1 ⟨p1.content, l1, "html", htmlMetadata l1 p1 1⟩
      (by decide) (by simp [d1s]) (by simp [hdom1]) h1 hdoc1]
    rw [if_neg (by decide)]
    simp only [List.singleton_append, List.cons_append, List.nil_append]
    rw [crawlUrl_fetch_ok web ⟨true, 1, true, 2⟩ (urlDomain s) 0 l2 1
      ⟨[l1, s], [⟨p0.content, s, "html", htmlMetadata s p0 0⟩,
                 ⟨p1.content, l1, "html", htmlMetadata l1 p1 1⟩], [s, l1]⟩
      p2 ⟨p2.content, l2, "html", htmlMetadata l2 p2 1⟩
      (by decide) (by simp [d2s, d21]) (by simp [hdom2]) h2 hdoc2]
    rw [if_neg (by decide)]
    simp
  have hload : HTMLLoader.load web ⟨true, 1, true, 2⟩ [] s =
      ⟨.ok [⟨p0.content, s, "html", htmlMetadata s p0 0⟩,
            ⟨p1.content, l1, "html", htmlMetadata l1 p1 1⟩,
            ⟨p2.content, l2, "html", htmlMetadata l2 p2 1⟩],
       ⟨[l2, l1, s], [⟨p0.content, s, "html", htmlMetadata s p0 0⟩,
                      ⟨p1.content, l1, "html", htmlMetadata l1 p1 1⟩,
                      ⟨p2.content, l2, "html", htmlMetadata l2 p2 1⟩], [s, l1, l2]⟩⟩ := by
    unfold HTMLLoader.load
    rw [if_neg (not_not_intro hs)]
    simp only [hstep]
    rfl
  rw [hload]
  refine ⟨rfl, rfl, ?_, ?_, ?_⟩
  · simp [d3s, d31, d32]
  · simp [d4s, d41, d42]
  · simp [d5s, d51, d52]

/-- Witness pages for the amended C4: a start page with five distinct
same-domain links, all pages non-empty. -/
def pageW4s : FetchedPage :=
  ⟨"S", none, ["http://z.com/1", "http://z.com/2", "http://z.com/3",
               "http://z.com/4", "http://z.com/5"]⟩

/-- The first linked page of the C4 witness graph. -/
def pageW4a : FetchedPage := ⟨"P1", none, []⟩

/-- The second linked page of the C4 witness graph. -/
def pageW4b : FetchedPage := ⟨"P2", none, []⟩

/-- The C4 witness web (pages 3–5 are fetchable too). -/
def webW4 : Web :=
  { fetch := fun u =>
      if u = "http://z.com/" then some pageW4s
      else if u = "http://z.com/1" then some pageW4a
      else if u = "http://z.com/2" then some pageW4b
      else if u = "http://z.com/3" then some ⟨"P3", none, []⟩
      else if u = "http://z.com/4" then some ⟨"P4", none, []⟩
      else if u = "http://z.com/5" then some ⟨"P5", none, []⟩
      else none,
    urljoin := fun _ href => href }

/-- Witness for the amended C4 at a concrete graph. -/
theorem claim4_link_cap_witness :
    (HTMLLoader.load webW4 ⟨true, 1, true, 2⟩ [] "http://z.com/").result =
      .ok [⟨pageW4s.content, "http://z.com/", "html",
            htmlMetadata "http://z.com/" pageW4s 0⟩,
           ⟨pageW4a.content, "http://z.com/1", "html",
            htmlMetadata "http://z.com/1" pageW4a 1⟩,
           ⟨pageW4b.content, "http://z.com/2", "html",
            htmlMetadata "http://z.com/2" pageW4b 1⟩] ∧
    (HTMLLoader.load webW4 ⟨true, 1, true, 2⟩ [] "http://z.com/").final.trace =
      ["http://z.com/", "http://z.com/1", "http://z.com/2"] ∧
    "http://z.com/3" ∉
      (HTMLLoader.load webW4 ⟨true, 1, true, 2⟩ [] "http://z.com/").final.trace ∧
    "http://z.com/4" ∉
      (HTMLLoader.load webW4 ⟨true, 1, true, 2⟩ [] "http://z.com/").final.trace ∧
    "http://z.com/5" ∉
      (HTMLLoader.load webW4 ⟨true, 1, true, 2⟩ [] "http://z.com/").final.trace :=
  claim4_link_cap webW4 "http://z.com/" "http://z.com/1" "http://z.com/2" "http://z.com/3"
    "http://z.com/4" "http://z.com/5" pageW4s pageW4a pageW4b
    (by decide) (by decide) (by decide) (by decide) (by decide) (by decide) (by decide)
    (by decide) (by decide) (by decide) (by decide) (by decide) (by decide) (by decide)
    (by decide) (by decide) (by decide) (by decide) (by decide) (by decide) (by decide)
    (by decide) (by decide) (by decide) (by decide) (by decide)

/-! ## C9: document-count bound -/

/-- Per-fuel bound on documents added by one crawl call: one Document
for the page itself plus at most `m` child crawls of smaller fuel. -/
def docBound (m : Nat) : Nat → Nat
  | 0 => 0
  | f + 1 => 1 + m * docBound m f

/-- The slice `xs[:m]` has at most `m` elements when `m ≥ 0`. -/
theorem pySliceTo_length_le {α : Type} (xs : List α) (m : Int) (hm : 0 ≤ m) :
    (pySliceTo xs m).length ≤ m.toNat := by
  simp only [pySliceTo, if_pos hm]
  simp [List.length_take]

/-- The crawl adds at most `docBound m fuel` documents. -/
theorem crawl_docs_le (web : Web) (cfg : CrawlerConfig) (base : String)
    (hm : 0 ≤ cfg.max_links_per_page) :
    ∀ (fuel : Nat) (url : String) (depth : Nat) (st : CrawlState),
      (crawlUrl web cfg base fuel url depth st).documents.length ≤
        st.documents.length + docBound cfg.max_links_per_page.toNat fuel := by
  intro fuel
  induction fuel with
  | zero =>
    intro url depth st
    simp [crawlUrl, docBound]
  | succ f ih =>
    intro url depth st
    by_cases hd : (depth : Int) > cfg.max_depth
    · rw [crawlUrl_depth_guard _ _ _ _ _ _ _ hd]
      exact Nat.le_add_right _ _
    by_cases hv : url ∈ st.visited
    · rw [crawlUrl_visited _ _ _ _ _ _ _ hd hv]
      exact Nat.le_add_right _ _
    by_cases hdom : cfg.stay_in_domain ∧ urlDomain url ≠ base
    · rw [crawlUrl_domain_guard _ _ _ _ _ _ _ hd hv hdom]
      exact Nat.le_add_right _ _
    cases hf : web.fetch url with
    | none =>
      rw [crawlUrl_fetch_fail _ _ _ _ _ _ _ hd hv hdom hf]
      exact Nat.le_add_right _ _
    | some page =>
      cases hdoc : mkDocument page.content url "html" (htmlMetadata url page depth) with
      | error e =>
        rw [crawlUrl_fetch_nodoc _ _ _ _ _ _ _ _ _ hd hv hdom hf hdoc]
        exact Nat.le_add_right _ _
      | ok doc =>
        rw [crawlUrl_fetch_ok _ _ _ _ _ _ _ _ _ hd hv hdom hf hdoc]
        by_cases hfl : cfg.follow_links ∧ (depth : Int) < cfg.max_depth
        · rw [if_pos hfl]
          have hfold : ∀ (links : List String) (st' : CrawlState),
              ((links.foldl (fun s href =>
                crawlUrl web cfg base f (web.urljoin url href) (depth + 1) s)
                  st').documents.length) ≤
                st'.documents.length +
                  links.length * docBound cfg.max_links_per_page.toNat f := by
            intro links
            induction links with
            | nil =>
              intro st'
              simp
            | cons x xs ihx =>
              intro st'
              simp only [List.foldl_cons]
              calc ((xs.foldl (fun s href =>
                    crawlUrl web cfg base f (web.urljoin url href) (depth + 1) s)
                      (crawlUrl web cfg base f (web.urljoin url x) (depth + 1)
                        st')).documents.length)
                  ≤ (crawlUrl web cfg base f (web.urljoin url x) (depth + 1)
                      st').documents.length +
                      xs.length * docBound cfg.max_links_per_page.toNat f := ihx _
                _ ≤ (st'.documents.length + docBound cfg.max_links_per_page.toNat f) +
                      xs.length * docBound cfg.max_links_per_page.toNat f :=
                    Nat.add_le_add_right (ih _ _ _) _
                _ = st'.documents.length +
                      (xs.length + 1) * docBound cfg.max_links_per_page.toNat f := by
                    ring
          calc (((pySliceTo page.hrefs cfg.max_links_per_page).foldl
                (fun s href =>
                  crawlUrl web cfg base f (web.urljoin url href) (depth + 1) s)
                ⟨url :: st.visited, st.documents ++ [doc],
                 st.trace ++ [url]⟩).documents.length)
              ≤ (st.documents ++ [doc]).length +
                  (pySliceTo page.hrefs cfg.max_links_per_page).length *
                    docBound cfg.max_links_per_page.toNat f := hfold _ _
            _ ≤ (st.documents.length + 1) +
                  cfg.max_links_per_page.toNat *
                    docBound cfg.max_links_per_page.toNat f := by
                have h1 := pySliceTo_length_le page.hrefs cfg.max_links_per_page hm
                have h2 := Nat.mul_le_mul_right
                  (docBound cfg.max_links_per_page.toNat f) h1
                simp only [List.length_append, List.length_cons, List.length_nil]
                omega
            _ = st.documents.length + docBound cfg.max_links_per_page.toNat (f + 1) := by
                simp only [docBound]
                ring
        · rw [if_neg hfl]
          simp only [List.length_append, List.length_cons, List.length_nil, docBound]
          have : 1 ≤ 1 + cfg.max_links_per_page.toNat *
              docBound cfg.max_links_per_page.toNat f := Nat.le_add_right 1 _
          omega

/-- The bound `docBound m f` is the geometric sum `1 + m + ... + m^(f-1)`. -/
theorem docBound_eq_geom (m : Nat) : ∀ f, docBound m f = ∑ k ∈ Finset.range f, m ^ k := by
  intro f
  induction f with
  | zero => simp [docBound]
  | succ n ih =>
    rw [Finset.sum_range_succ']
    simp only [pow_succ, pow_zero]
    rw [← Finset.sum_mul, ← ih]
    simp only [docBound]
    ring

/-- C9: for `max_depth = d ≥ 0` and `max_links_per_page = m ≥ 0`, on
every crawl graph the number of Documents returned by
`HTMLLoader.load` is at most `∑ k ≤ d, m^k`: at most one page at
depth 0, and each page spawns at most `m` child crawls, only while
`depth < max_depth`. -/
theorem claim9_doc_count_bound (web : Web) (cfg : CrawlerConfig) (v0 : List String)
    (s : String) (docs : List Document)
    (hd : 0 ≤ cfg.max_depth) (hm : 0 ≤ cfg.max_links_per_page)
    (hres : (HTMLLoader.load web cfg v0 s).result = .ok docs) :
    docs.length ≤ ∑ k ∈ Finset.range (cfg.max_depth.toNat + 1),
      cfg.max_links_per_page.toNat ^ k := by
  unfold HTMLLoader.load at hres
  by_cases hpre : (pyStartsWith s "http://" || pyStartsWith s "https://") = true
  · rw [if_neg (not_not_intro hpre)] at hres
    by_cases hempty : (crawlUrl web cfg (urlDomain s) (cfg.max_depth.toNat + 1) s 0
        { visited := [], documents := [], trace := [] }).documents = []
    · rw [if_pos hempty] at hres
      exact absurd hres (by simp)
    · rw [if_neg hempty] at hres
      have hdocs : docs = (crawlUrl web cfg (urlDomain s) (cfg.max_depth.toNat + 1) s 0
          { visited := [], documents := [], trace := [] }).documents := by
        have := hres
        simp only [Except.ok.injEq] at this
        exact this.symm
      rw [hdocs, ← docBound_eq_geom]
      have := crawl_docs_le web cfg (urlDomain s) hm (cfg.max_depth.toNat + 1) s 0
        ⟨[], [], []⟩
      simpa using this
  · rw [if_pos hpre] at hres
    exact absurd hres (by simp)

/-- Witness for C9: the two documents of a concrete crawl against the
default configuration's bound `1 + 10 + 100`. -/
theorem claim9_doc_count_bound_witness :
    ([⟨"S", "http://v.com/", "html", htmlMetadata "http://v.com/" pageW5s 0⟩,
      ⟨"B", "http://v.com/b", "html", htmlMetadata "http://v.com/b" pageW5b 1⟩] :
        List Document).length ≤
      ∑ k ∈ Finset.range (defaultCrawlerConfig.max_depth.toNat + 1),
        defaultCrawlerConfig.max_links_per_page.toNat ^ k :=
  claim9_doc_count_bound webW5 defaultCrawlerConfig [] "http://v.com/"
    [⟨"S", "http://v.com/", "html", htmlMetadata "http://v.com/" pageW5s 0⟩,
     ⟨"B", "http://v.com/b", "html", htmlMetadata "http://v.com/b" pageW5b 1⟩]
    (by decide) (by decide) (by decide)

/-! ## C2: at-most-once fetching and the visited set -/

/-- Counting distributes over list append. -/
theorem countOf_append (l1 l2 : List String) (u : String) :
    countOf (l1 ++ l2) u = countOf l1 u + countOf l2 u := by
  simp [countOf, List.filter_append]

/-- Counting in a singleton. -/
theorem countOf_singleton (v u : String) :
    countOf [v] u = if v = u then 1 else 0 := by
  by_cases h : v = u <;> simp [countOf, h]

/-- A URL not in the list is counted zero times. -/
theorem countOf_eq_zero_of_not_mem (l : List String) (u : String) (h : u ∉ l) :
    countOf l u = 0 := by
  simp only [countOf, List.length_eq_zero, List.filter_eq_nil]
  intro a ha
  simp only [decide_eq_true_eq]
  rintro rfl
  exact h ha

/-- Appending one document changes `docsFor` only at its source URI. -/
theorem docsFor_append_doc (st : CrawlState) (doc : Document) (u : String)
    (v t : List String) :
    docsFor ⟨v, st.documents ++ [doc], t⟩ u =
      docsFor st u + (if doc.source_uri = u then 1 else 0) := by
  by_cases h : doc.source_uri = u <;> simp [docsFor, List.filter_append, h]

/-- A successful `mkDocument` returns exactly the given fields. -/
theorem mkDocument_ok_inv (c s d : String) (m : List (String × MetaVal))
    (doc : Document) (h : mkDocument c s d m = .ok doc) : doc = ⟨c, s, d, m⟩ := by
  unfold mkDocument at h
  by_cases hc : c = "" <;> by_cases hs : s = "" <;> by_cases hd : d = "" <;> simp_all

/-- A failing `mkDocument` means one of the required fields is empty. -/
theorem mkDocument_error_cases (c s d : String) (m : List (String × MetaVal))
    (e : PyErr) (h : mkDocument c s d m = .error e) : c = "" ∨ s = "" ∨ d = "" := by
  unfold mkDocument at h
  by_cases hc : c = "" <;> by_cases hs : s = "" <;> by_cases hd : d = "" <;> simp_all

/-- The crawl invariant behind C2, over the three state components:
for every URL whose fetch succeeds, being visited coincides with
appearing in the fetch trace and the trace holds it at most once;
every URL carries at most one Document; a URL with a Document is
visited; and a visited non-empty URL whose fetch succeeds with
non-empty text carries at least one Document. -/
def CrawlInv (web : Web) (st : CrawlState) : Prop :=
  (∀ u, (web.fetch u).isSome →
    ((u ∈ st.visited ↔ u ∈ st.trace) ∧ countOf st.trace u ≤ 1)) ∧
  (∀ u, docsFor st u ≤ 1) ∧
  (∀ u, 1 ≤ docsFor st u → u ∈ st.visited) ∧
  (∀ u p, u ≠ "" → web.fetch u = some p → p.content ≠ "" → u ∈ st.visited →
    1 ≤ docsFor st u)

/-- A failed fetch preserves the invariant: only the trace grows, by
a URL whose fetch does not succeed. -/
theorem inv_trace_fail (web : Web) (st : CrawlState) (url : String)
    (hf : web.fetch url = none) (h : CrawlInv web st) :
    CrawlInv web { st with trace := st.trace ++ [url] } := by
  obtain ⟨h1, h2, h3, h4⟩ := h
  refine ⟨?_, h2, h3, h4⟩
  intro u hu
  have hne : u ≠ url := by
    rintro rfl
    rw [hf] at hu
    simp at hu
  obtain ⟨hiff, hcount⟩ := h1 u hu
  constructor
  · simp [List.mem_append, hne, hiff]
  · rw [countOf_append, countOf_singleton, if_neg (Ne.symm hne)]
    simpa using hcount

/-- Marking a freshly fetched URL preserves the trace/visited part of
the invariant: the URL goes into both the visited set and the trace,
and it was in neither before. -/
theorem inv1_mark (web : Web) (st : CrawlState) (url : String)
    (hv : url ∉ st.visited)
    (h1 : ∀ u, (web.fetch u).isSome →
      ((u ∈ st.visited ↔ u ∈ st.trace) ∧ countOf st.trace u ≤ 1)) :
    ∀ u, (web.fetch u).isSome →
      ((u ∈ url :: st.visited ↔ u ∈ st.trace ++ [url]) ∧
        countOf (st.trace ++ [url]) u ≤ 1) := by
  intro u hu
  by_cases hne : u = url
  · subst hne
    have hnt : u ∉ st.trace := fun hmem => hv ((h1 u hu).1.mpr hmem)
    refine ⟨by simp, ?_⟩
    rw [countOf_append, countOf_singleton, if_pos rfl,
      countOf_eq_zero_of_not_mem _ _ hnt]
  · obtain ⟨hiff, hcount⟩ := h1 u hu
    refine ⟨by simp [List.mem_cons, List.mem_append, hne, hiff], ?_⟩
    rw [countOf_append, countOf_singleton, if_neg (Ne.symm hne)]
    simpa using hcount

/-- A fetched page whose Document construction fails preserves the
invariant: the URL is marked visited and traced, no Document added. -/
theorem inv_mark_nodoc (web : Web) (st : CrawlState) (url : String)
    (page : FetchedPage) (md : List (String × MetaVal)) (e : PyErr)
    (hf : web.fetch url = some page)
    (hdoc : mkDocument page.content url "html" md = .error e)
    (hv : url ∉ st.visited) (h : CrawlInv web st) :
    CrawlInv web ⟨url :: st.visited, st.documents, st.trace ++ [url]⟩ := by
  obtain ⟨h1, h2, h3, h4⟩ := h
  refine ⟨inv1_mark web st url hv h1, h2, ?_, ?_⟩
  · intro u hu
    exact List.mem_cons_of_mem _ (h3 u hu)
  · intro u p hune hful hcont hvis
    by_cases hne : u = url
    · subst hne
      rw [hf] at hful
      injection hful with hp
      rcases mkDocument_error_cases _ _ _ _ _ hdoc with hc | hs | hdd
      · rw [hp] at hc
        exact absurd hc hcont
      · exact absurd hs hune
      · exact absurd hdd (by decide)
    · have hvv : u ∈ st.visited := by
        rcases List.mem_cons.mp hvis with h' | h'
        · exact absurd h' hne
        · exact h'
      exact h4 u p hune hful hcont hvv

/-- A fetched page with a valid Document preserves the invariant:
the URL is marked visited and traced, and its Document — the only one
carrying this source URI — is appended. -/
theorem inv_mark_doc (web : Web) (st : CrawlState) (url : String)
    (page : FetchedPage) (md : List (String × MetaVal)) (doc : Document)
    (hf : web.fetch url = some page)
    (hdoc : mkDocument page.content url "html" md = .ok doc)
    (hv : url ∉ st.visited) (h : CrawlInv web st) :
    CrawlInv web ⟨url :: st.visited, st.documents ++ [doc], st.trace ++ [url]⟩ := by
  obtain ⟨h1, h2, h3, h4⟩ := h
  have hdeq : doc = ⟨page.content, url, "html", md⟩ := mkDocument_ok_inv _ _ _ _ _ hdoc
  have hsrc : doc.source_uri = url := by rw [hdeq]
  have hzero : docsFor st url = 0 := by
    by_contra hnz
    exact hv (h3 url (Nat.one_le_iff_ne_zero.mpr hnz))
  refine ⟨inv1_mark web st url hv h1, ?_, ?_, ?_⟩
  · intro u
    rw [docsFor_append_doc st doc u _ _]
    by_cases hne : doc.source_uri = u
    · rw [if_pos hne]
      have huu : u = url := by rw [← hne, hsrc]
      rw [huu, hzero]
    · rw [if_neg hne]
      simpa using h2 u
  · intro u hu
    rw [docsFor_append_doc st doc u _ _] at hu
    by_cases hne : u = url
    · rw [hne]
      exact List.mem_cons_self _ _
    · have hds : doc.source_uri ≠ u := by
        rw [hsrc]
        exact fun hh => hne hh.symm
      rw [if_neg hds] at hu
      simp only [Nat.add_zero] at hu
      exact List.mem_cons_of_mem _ (h3 u hu)
  · intro u p hune hful hcont hvis
    rw [docsFor_append_doc st doc u _ _]
    by_cases hne : u = url
    · have hds : doc.source_uri = u := by rw [hsrc, hne]
      rw [if_pos hds]
      exact Nat.le_add_left 1 _
    · have hvv : u ∈ st.visited := by
        rcases List.mem_cons.mp hvis with h' | h'
        · exact absurd h' hne
        · exact h'
      have := h4 u p hune hful hcont hvv
      omega

/-- The empty crawl state satisfies the invariant. -/
theorem inv_init (web : Web) : CrawlInv web ⟨[], [], []⟩ := by
  refine ⟨?_, ?_, ?_, ?_⟩ <;> simp [countOf, docsFor]

/-- One crawl call preserves the invariant, children included. -/
theorem crawl_preserves_inv (web : Web) (cfg : CrawlerConfig) (base : String) :
    ∀ (fuel : Nat) (url : String) (depth : Nat) (st : CrawlState),
      CrawlInv web st → CrawlInv web (crawlUrl web cfg base fuel url depth st) := by
  intro fuel
  induction fuel with
  | zero =>
    intro url depth st h
    simpa [crawlUrl] using h
  | succ f ih =>
    intro url depth st hst
    by_cases hd : (depth : Int) > cfg.max_depth
    · rw [crawlUrl_depth_guard _ _ _ _ _ _ _ hd]
      exact hst
    by_cases hv : url ∈ st.visited
    · rw [crawlUrl_visited _ _ _ _ _ _ _ hd hv]
      exact hst
    by_cases hdom : cfg.stay_in_domain ∧ urlDomain url ≠ base
    · rw [crawlUrl_domain_guard _ _ _ _ _ _ _ hd hv hdom]
      exact hst
    cases hf : web.fetch url with
    | none =>
      rw [crawlUrl_fetch_fail _ _ _ _ _ _ _ hd hv hdom hf]
      exact inv_trace_fail web st url hf hst
    | some page =>
      cases hdoc : mkDocument page.content url "html" (htmlMetadata url page depth) with
      | error e =>
        rw [crawlUrl_fetch_nodoc _ _ _ _ _ _ _ _ _ hd hv hdom hf hdoc]
        exact inv_mark_nodoc web st url page _ e hf hdoc hv hst
      | ok doc =>
        rw [crawlUrl_fetch_ok _ _ _ _ _ _ _ _ _ hd hv hdom hf hdoc]
        have hst2 : CrawlInv web
            ⟨url :: st.visited, st.documents ++ [doc], st.trace ++ [url]⟩ :=
          inv_mark_doc web st url page _ doc hf hdoc hv hst
        by_cases hfl : cfg.follow_links ∧ (depth : Int) < cfg.max_depth
        · rw [if_pos hfl]
          have hfold : ∀ (links : List String) (st' : CrawlState), CrawlInv web st' →
              CrawlInv web (links.foldl (fun s href =>
                crawlUrl web cfg base f (web.urljoin url href) (depth + 1) s) st') := by
            intro links
            induction links with
            | nil =>
              intro st' h'
              exact h'
            | cons x xs ihx =>
              intro st' h'
              exact ihx _ (ih _ _ _ h')
          exact hfold _ _ hst2
        · rw [if_neg hfl]
          exact hst2

/-- C2, amended: for every crawl graph and every non-empty URL whose
fetch succeeds, one top-level `load` call fetches that URL at most
once, the returned sequence contains at most one Document with that
URL as source URI — exactly one whenever the URL is fetched at all
and its extracted text is non-empty (so a URL reached via two
different link paths is fetched and included at most once, exactly
once under those conditions) — and the crawl starts from an empty
visited set, so the outcome is independent of the loader's previously
accumulated visited state.  (A URL whose fetch fails is not marked
visited and can be fetched once per link path; see the
counterexample.) -/
theorem claim2_visit_once (web : Web) (cfg : CrawlerConfig) (v0 v1 : List String)
    (s u : String) (p : FetchedPage)
    (hu : web.fetch u = some p) (hune : u ≠ "") :
    countOf (HTMLLoader.load web cfg v0 s).final.trace u ≤ 1 ∧
    docsFor (HTMLLoader.load web cfg v0 s).final u ≤ 1 ∧
    (p.content ≠ "" → u ∈ (HTMLLoader.load web cfg v0 s).final.trace →
      docsFor (HTMLLoader.load web cfg v0 s).final u = 1) ∧
    (HTMLLoader.load web cfg v0 s).result = (HTMLLoader.load web cfg v1 s).result ∧
    (HTMLLoader.load web cfg v0 s).final.trace =
      (HTMLLoader.load web cfg v1 s).final.trace ∧
    (HTMLLoader.load web cfg v0 s).final.documents =
      (HTMLLoader.load web cfg v1 s).final.documents := by
  by_cases hpre : (pyStartsWith s "http://" || pyStartsWith s "https://") = true
  · have hrindep : HTMLLoader.load web cfg v0 s = HTMLLoader.load web cfg v1 s := by
      unfold HTMLLoader.load
      rw [if_neg (not_not_intro hpre), if_neg (not_not_intro hpre)]
    have hfin : (HTMLLoader.load web cfg v0 s).final =
        crawlUrl web cfg (urlDomain s) (cfg.max_depth.toNat + 1) s 0 ⟨[], [], []⟩ := by
      unfold HTMLLoader.load
      rw [if_neg (not_not_intro hpre)]
      by_cases hempty : (crawlUrl web cfg (urlDomain s) (cfg.max_depth.toNat + 1) s 0
          ⟨[], [], []⟩).documents = []
      · rw [if_pos hempty]
      · rw [if_neg hempty]
    have hinv : CrawlInv web (HTMLLoader.load web cfg v0 s).final := by
      rw [hfin]
      exact crawl_preserves_inv web cfg (urlDomain s) _ s 0 _ (inv_init web)
    obtain ⟨h1, h2, h3, h4⟩ := hinv
    have husome : (web.fetch u).isSome := by rw [hu]; rfl
    refine ⟨(h1 u husome).2, h2 u, ?_, by rw [hrindep], by rw [hrindep], by rw [hrindep]⟩
    intro hcont hmem
    have hvis : u ∈ (HTMLLoader.load web cfg v0 s).final.visited :=
      (h1 u husome).1.mpr hmem
    exact le_antisymm (h2 u) (h4 u p hune hu hcont hvis)
  · have hload : ∀ v : List String, HTMLLoader.load web cfg v s =
        ⟨.error (.valueError ("Invalid URL: " ++ s ++
          ". Must start with http:// or https://")), ⟨v, [], []⟩⟩ := by
      intro v
      unfold HTMLLoader.load
      rw [if_pos hpre]
    rw [hload v0, hload v1]
    refine ⟨?_, ?_, ?_, rfl, rfl, rfl⟩
    · simp [countOf]
    · simp [docsFor]
    · intro _ hmem
      exact absurd hmem (by simp)

/-- The single-page web of the C2 witness. -/
def webW2 : Web :=
  { fetch := fun v => if v = "http://q.com/" then some ⟨"Q", none, []⟩ else none,
    urljoin := fun _ href => href }

/-- Witness for the amended C2 at a concrete graph. -/
theorem claim2_visit_once_witness :
    countOf (HTMLLoader.load webW2 defaultCrawlerConfig [] "http://q.com/").final.trace
      "http://q.com/" ≤ 1 ∧
    docsFor (HTMLLoader.load webW2 defaultCrawlerConfig [] "http://q.com/").final
      "http://q.com/" ≤ 1 ∧
    ((⟨"Q", none, []⟩ : FetchedPage).content ≠ "" →
      "http://q.com/" ∈
        (HTMLLoader.load webW2 defaultCrawlerConfig [] "http://q.com/").final.trace →
      docsFor (HTMLLoader.load webW2 defaultCrawlerConfig [] "http://q.com/").final
        "http://q.com/" = 1) ∧
    (HTMLLoader.load webW2 defaultCrawlerConfig [] "http://q.com/").result =
      (HTMLLoader.load webW2 defaultCrawlerConfig ["http://old.com/"] "http://q.com/").result ∧
    (HTMLLoader.load webW2 defaultCrawlerConfig [] "http://q.com/").final.trace =
      (HTMLLoader.load webW2 defaultCrawlerConfig ["http://old.com/"]
        "http://q.com/").final.trace ∧
    (HTMLLoader.load webW2 defaultCrawlerConfig [] "http://q.com/").final.documents =
      (HTMLLoader.load webW2 defaultCrawlerConfig ["http://old.com/"]
        "http://q.com/").final.documents :=
  claim2_visit_once webW2 defaultCrawlerConfig [] ["http://old.com/"] "http://q.com/"
    "http://q.com/" ⟨"Q", none, []⟩ (by decide) (by decide)
